import Mathlib

/-!
Shallow embedding of the NEORV32 Runtime Environment (RTE),
`src/sw/lib/source/neorv32_rte.c`: trap-vector table, handler installer,
first-level trap handler (`neorv32_rte_core`), context accessors, the
debug trap handler, setup, and the diagnostic hex printer.

Machine integers are modelled as `Nat` with explicit reduction modulo
`2^32` where the C code's `uint32_t` arithmetic wraps.  The two build
configuration switches (`__riscv_32e`, `__riscv_c`) are explicit `Bool`
parameters.
-/

/-- The modulus of `uint32_t` arithmetic, 2^32. -/
def UINT32_MOD : Nat := 4294967296

/-- Wrapping 32-bit addition. -/
def add32 (a b : Nat) : Nat := (a + b) % UINT32_MOD

/-- Wrapping 32-bit subtraction (`a - b` in `uint32_t`). -/
def sub32 (a b : Nat) : Nat := (a + (UINT32_MOD - b % UINT32_MOD)) % UINT32_MOD

/-- Modelled from the spec: trap identifier constants of the
`NEORV32_RTE_TRAP` enumeration (the `neorv32.h` header is not under
`src/`).  Encoding per spec section 6: bit 31 = direction
(0 exception / 1 interrupt), bits 4..0 = index.  Exception cause values
follow the RISC-V `mcause` assignment named in the spec's cause table. -/
def TRAP_CODE_I_MISALIGNED : Nat := 0x00000000

/-- Modelled from the spec: instruction access fault ("fetch fault"). -/
def TRAP_CODE_I_ACCESS : Nat := 0x00000001

/-- Modelled from the spec: illegal instruction. -/
def TRAP_CODE_I_ILLEGAL : Nat := 0x00000002

/-- Modelled from the spec: environment breakpoint. -/
def TRAP_CODE_BREAKPOINT : Nat := 0x00000003

/-- Modelled from the spec: load address misaligned. -/
def TRAP_CODE_L_MISALIGNED : Nat := 0x00000004

/-- Modelled from the spec: load access fault. -/
def TRAP_CODE_L_ACCESS : Nat := 0x00000005

/-- Modelled from the spec: store address misaligned. -/
def TRAP_CODE_S_MISALIGNED : Nat := 0x00000006

/-- Modelled from the spec: store access fault. -/
def TRAP_CODE_S_ACCESS : Nat := 0x00000007

/-- Modelled from the spec: environment call from U-mode. -/
def TRAP_CODE_UENV_CALL : Nat := 0x00000008

/-- Modelled from the spec: environment call from M-mode. -/
def TRAP_CODE_MENV_CALL : Nat := 0x0000000b

/-- Modelled from the spec: double-trap exception. -/
def TRAP_CODE_DOUBLE_TRAP : Nat := 0x00000010

/-- Modelled from the spec: machine software interrupt. -/
def TRAP_CODE_MSI : Nat := 0x80000003

/-- Modelled from the spec: machine timer interrupt. -/
def TRAP_CODE_MTI : Nat := 0x80000007

/-- Modelled from the spec: machine external interrupt. -/
def TRAP_CODE_MEI : Nat := 0x8000000b

/-- Modelled from the spec: first fast interrupt line (FIRQ 0). -/
def TRAP_CODE_FIRQ_0 : Nat := 0x80000010

/-- Modelled from the spec: last fast interrupt line (FIRQ 15). -/
def TRAP_CODE_FIRQ_15 : Nat := 0x8000001f

/-- The private trap vector look-up table
`__neorv32_rte_vector_lut[2][32]`: a function from (direction row,
index column) to the stored handler address word.  Only rows 0 and 1
and columns 0..31 correspond to array cells. -/
abbrev VectorLut := Nat → Nat → Nat

/-- Functional store of one vector-table slot. -/
def lutStore (lut : VectorLut) (d i v : Nat) : VectorLut :=
  fun d' i' => if d' = d ∧ i' = i then v else lut d' i'

/-- Bitmask `~0x8000001fU` as a `uint32_t`, used by the installer's
validity check (`code & (~0x8000001fU)`). -/
def RTE_INVALID_MASK : Nat := 0x7fffffe0

/-- The column actually written by the C expression
`__neorv32_rte_vector_lut[code >> 31][code]`: on the 32-bit target the
byte offset `4*code` wraps modulo 2^32, so the word written is
`(4*code mod 2^32)/4` words past the start of row `code >> 31`. -/
def lutEffIndex (code : Nat) : Nat := 4 * code % UINT32_MOD / 4

/-- Embedding of `neorv32_rte_handler_install` (neorv32_rte.c:71-80).
Returns the status (`0` ok, `-1` invalid trap code) and the updated
vector table. -/
def neorv32_rte_handler_install (lut : VectorLut) (code handler : Nat) :
    Int × VectorLut :=
  if code &&& RTE_INVALID_MASK ≠ 0 then
    (-1, lut)
  else
    (0, lutStore lut (code >>> 31) (lutEffIndex code) handler)

/-- The vector-table read performed by the dispatcher
(`__neorv32_rte_vector_lut[mcause >> 31][mcause & 31]`,
neorv32_rte.c:146). -/
def dispatchLookup (lut : VectorLut) (mcause : Nat) : Nat :=
  lut (mcause >>> 31) (mcause &&& 31)

/-- Number of general-purpose registers of the configured register
file: 16 under `__riscv_32e`, else 32. -/
def nregs (rv32e : Bool) : Nat := if rv32e then 16 else 32

/-- Functional store of one memory word (byte-addressed word memory). -/
def storeWord (m : Nat → Nat) (a v : Nat) : Nat → Nat :=
  fun a' => if a' = a then v else m a'

/-- Register-index mask of the context accessors: `x & 15` under
`__riscv_32e`, else `x & 31`. -/
def regMask (rv32e : Bool) : Nat := if rv32e then 15 else 31

/-- Frame-slot address computed by both context accessors
(neorv32_rte.c:229-234 and 253-258): the MSCRATCH value plus
`(x & mask) << 2`, in `uint32_t` arithmetic.  The C parameter `x` is a
signed `int`; its bit pattern is `x mod 2^32`. -/
def contextAddr (rv32e : Bool) (mscratch : Nat) (x : Int) : Nat :=
  (mscratch + (((x % (4294967296 : Int)).toNat &&& regMask rv32e) <<< 2)) % UINT32_MOD

/-- Embedding of `neorv32_rte_context_get` (neorv32_rte.c:226-236). -/
def neorv32_rte_context_get (rv32e : Bool) (mscratch : Nat) (mem : Nat → Nat)
    (x : Int) : Nat :=
  mem (contextAddr rv32e mscratch x)

/-- Embedding of `neorv32_rte_context_put` (neorv32_rte.c:250-260);
returns the updated word memory. -/
def neorv32_rte_context_put (rv32e : Bool) (mscratch : Nat) (mem : Nat → Nat)
    (x : Int) (data : Nat) : Nat → Nat :=
  storeWord mem (contextAddr rv32e mscratch x) data

/-- Machine state seen by the first-level trap handler: the interrupted
program's general-purpose registers, byte-addressed word memory, and
the CSRs the RTE touches. -/
structure RteState where
  regs : Nat → Nat
  mem : Nat → Nat
  mscratch : Nat
  mepc : Nat
  mcause : Nat
  mtinst : Nat
  mie : Nat

/-- Value stored into trap-frame slot `i` by the context-save assembly
(neorv32_rte.c:100-136): slot 0 gets a constant zero, slot 2 gets the
original (pre-trap) stack pointer, every other slot `i` gets register
`x_i`. -/
def frameVal (s : RteState) (i : Nat) : Nat :=
  if i = 0 then 0 else if i = 2 then s.regs 2 else s.regs i

/-- Trap-frame base address: the pre-trap stack pointer minus the frame
size `nregs * 4` (the `addi sp, sp, -32*4` / `-16*4` of the save
assembly). -/
def frameBase (rv32e : Bool) (s : RteState) : Nat :=
  sub32 (s.regs 2) (4 * nregs rv32e)

/-- Memory after the context-save assembly: word `frameBase + 4*i`
holds `frameVal i` for every register `i` of the configured file. -/
def saveMem (rv32e : Bool) (s : RteState) : Nat → Nat :=
  (List.range (nregs rv32e)).foldl
    (fun m i => storeWord m (add32 (frameBase rv32e s) (4 * i)) (frameVal s i)) s.mem

/-- Register file after the context-restore assembly
(neorv32_rte.c:174-211): registers `x1..x(nregs-1)` are reloaded from
the frame (`x2` from its dedicated slot, last), `x0` is never loaded,
and registers outside the configured file are untouched. -/
def restoreRegs (rv32e : Bool) (base : Nat) (m : Nat → Nat) (regs : Nat → Nat) :
    Nat → Nat :=
  fun i => if i = 0 then regs 0
           else if i < nregs rv32e then m (add32 base (4 * i))
           else regs i

/-- Return-address fix-up of the first-level handler
(neorv32_rte.c:155-171): for an exception other than an instruction
access fault, MEPC is advanced by 4, minus 2 when compressed
instructions are enabled (`__riscv_c`) and MTINST's two lowest bits are
not both set; otherwise MEPC is not written. -/
def fixupMepc (riscv_c : Bool) (mcause mepc mtinst : Nat) : Nat :=
  if mcause >>> 31 = 0 ∧ mcause ≠ TRAP_CODE_I_ACCESS then
    let m := add32 mepc 4
    if riscv_c ∧ mtinst &&& 3 ≠ 3 then sub32 m 2 else m
  else mepc

/-- Embedding of `neorv32_rte_core` (neorv32_rte.c:88-212), the
first-level trap handler.  `H a` is the state transformer of the
second-level handler installed at address `a`; the returned `Bool`
records whether a second-level handler was invoked.  Steps: save the
context to a stack frame (leaving the frame base in MSCRATCH), read
MCAUSE, look up the vector table, call the handler if the slot is
non-null, perform the return-address fix-up, restore the context from
the frame. -/
def neorv32_rte_core (rv32e riscv_c : Bool) (lut : VectorLut)
    (H : Nat → RteState → RteState) (s : RteState) : RteState × Bool :=
  let base := frameBase rv32e s
  let s1 : RteState := { s with mem := saveMem rv32e s, mscratch := base }
  let mcause := s1.mcause
  let handler_base := dispatchLookup lut mcause
  let s2 := if handler_base ≠ 0 then H handler_base s1 else s1
  let s3 : RteState := { s2 with mepc := fixupMepc riscv_c mcause s2.mepc s2.mtinst }
  ({ s3 with regs := restoreRegs rv32e base s3.mem s3.regs }, handler_base ≠ 0)

/-- The hexadecimal symbol table of `__neorv32_rte_print_hex`. -/
def hexSymbols : List Char := "0123456789ABCDEF".toList

/-- Loop-counter values of the `for` loop in `__neorv32_rte_print_hex`
(neorv32_rte.c:383): `i` runs from `digits - 8` up to `7` (the C `int`
counter may start negative). -/
def printHexIndices (digits : Int) : List Int :=
  (List.range (16 - digits).toNat).map (fun k => digits - 8 + (k : Int))

/-- Shift amount `28 - 4*i` computed on loop iteration `i` of
`__neorv32_rte_print_hex` (neorv32_rte.c:384). -/
def printHexShiftAmount (i : Int) : Int := 28 - 4 * i

/-- Characters emitted by `__neorv32_rte_print_hex`
(neorv32_rte.c:374-388).  A negative shift amount — undefined behavior
in C — is modelled as a shift by 0 via `Int.toNat`. -/
def _neorv32_rte_print_hex (uartAvail : Bool) (num : Nat) (digits : Int) :
    List Char :=
  if uartAvail then
    '0' :: 'x' :: (printHexIndices digits).map (fun i =>
      hexSymbols.getD ((num >>> (printHexShiftAmount i).toNat) &&& 0xF) '0')
  else []

/-- Cause-name text of the `switch` in `neorv32_rte_debug_handler`
(neorv32_rte.c:297-329).  The sixteen FIRQ case labels are the
consecutive codes `TRAP_CODE_FIRQ_0 .. TRAP_CODE_FIRQ_15`. -/
def causeOut (tc : Nat) : List Char :=
  if tc = TRAP_CODE_I_ACCESS then "Instruction access fault".toList
  else if tc = TRAP_CODE_I_ILLEGAL then "Illegal instruction".toList
  else if tc = TRAP_CODE_I_MISALIGNED then "Instruction address misaligned".toList
  else if tc = TRAP_CODE_BREAKPOINT then "Environment breakpoint".toList
  else if tc = TRAP_CODE_L_MISALIGNED then "Load address misaligned".toList
  else if tc = TRAP_CODE_L_ACCESS then "Load access fault".toList
  else if tc = TRAP_CODE_S_MISALIGNED then "Store address misaligned".toList
  else if tc = TRAP_CODE_S_ACCESS then "Store access fault".toList
  else if tc = TRAP_CODE_UENV_CALL then "Environment call from U-mode".toList
  else if tc = TRAP_CODE_MENV_CALL then "Environment call from M-mode".toList
  else if tc = TRAP_CODE_DOUBLE_TRAP then "Double-trap".toList
  else if tc = TRAP_CODE_MSI then "Machine software IRQ".toList
  else if tc = TRAP_CODE_MTI then "Machine timer IRQ".toList
  else if tc = TRAP_CODE_MEI then "Machine external IRQ".toList
  else if TRAP_CODE_FIRQ_0 ≤ tc ∧ tc ≤ TRAP_CODE_FIRQ_15 then
    "Fast IRQ ".toList ++ _neorv32_rte_print_hex true tc 1
  else
    "Unknown trap cause ".toList ++ _neorv32_rte_print_hex true tc 8

/-- Result of one debug-handler invocation: the final interrupt-enable
register, the emitted diagnostic characters, and whether the handler
entered the terminal `while(1) wfi` halt (it never returns iff
`halted`). -/
structure DebugResult where
  mie : Nat
  out : List Char
  halted : Bool

/-- Embedding of `neorv32_rte_debug_handler` (neorv32_rte.c:270-362).
If UART0 is unavailable it returns at once, touching nothing.
Otherwise it prints the diagnostic line; for an interrupt cause
(MCAUSE bit 31 set) it clears that cause's MIE bit; for the fatal
causes it zeroes MIE and halts forever. -/
def neorv32_rte_debug_handler (uartAvail : Bool)
    (mhartid mstatus mcause mepc mtinst mtval mie : Nat) : DebugResult :=
  if uartAvail = false then
    { mie := mie, out := [], halted := false }
  else
    let out1 := "<NEORV32-RTE> ".toList ++
      (if mhartid &&& 1 ≠ 0 then "[cpu1|".toList else "[cpu0|".toList) ++
      (if mstatus &&& (3 <<< 11) ≠ 0 then "M] ".toList else "U] ".toList) ++
      causeOut mcause ++
      " @ PC=".toList ++ _neorv32_rte_print_hex true mepc 8 ++
      ", MTINST=".toList ++ _neorv32_rte_print_hex true mtinst 8 ++
      ", MTVAL=".toList ++ _neorv32_rte_print_hex true mtval 8
    let isIrq := mcause.testBit 31
    let mie1 := if isIrq then
        mie &&& ((UINT32_MOD - 1) ^^^ (1 <<< (mcause &&& 0x1f)))
      else mie
    let out2 := if isIrq then out1 ++ " Disabling IRQ source".toList else out1
    if mcause = TRAP_CODE_I_ACCESS ∨ mcause = TRAP_CODE_I_MISALIGNED ∨
        mcause = TRAP_CODE_DOUBLE_TRAP then
      { mie := 0,
        out := out2 ++ " !!FATAL EXCEPTION!! Halting CPU </NEORV32-RTE>\n".toList,
        halted := true }
    else
      { mie := mie1, out := out2 ++ " </NEORV32-RTE>\n".toList, halted := false }

/-- CSR and table state touched by `neorv32_rte_setup`. -/
structure SetupState where
  mstatus : Nat
  mtvec : Nat
  mie : Nat
  lut : VectorLut

/-- The vector-table fill loop of `neorv32_rte_setup`
(neorv32_rte.c:46-51): for every index 0..31, both rows are written
with the debug handler's address. -/
def fillLut (lut : VectorLut) (dbgAddr : Nat) : VectorLut :=
  (List.range 32).foldl
    (fun L i => lutStore (lutStore L 0 i dbgAddr) 1 i dbgAddr) lut

/-- Embedding of `neorv32_rte_setup` (neorv32_rte.c:33-53).
`coreAddr` / `dbgAddr` are the link addresses of `neorv32_rte_core` and
`neorv32_rte_debug_handler`.  MSTATUS is set to machine-mode previous
privilege, MTVEC to the core's address with its two low bits cleared,
MIE to zero; the table is filled only when MHARTID reads zero. -/
def neorv32_rte_setup (mhartid coreAddr dbgAddr : Nat) (st : SetupState) :
    SetupState :=
  { mstatus := (1 <<< 12) ||| (1 <<< 11),
    mtvec := coreAddr &&& 0xfffffffc,
    mie := 0,
    lut := if mhartid = 0 then fillLut st.lut dbgAddr else st.lut }

lemma invalid_mask_testBit {i : Nat} (h5 : 5 ≤ i) (h31 : i < 31) :
    (RTE_INVALID_MASK).testBit i = true := by
  have he : RTE_INVALID_MASK = (2 ^ 26 - 1) <<< 5 := by decide
  rw [he, Nat.testBit_shiftLeft]
  simp only [Nat.testBit_two_pow_sub_one]
  simp [h5]
  omega

lemma valid_code_low (code : Nat) (hv : code &&& RTE_INVALID_MASK = 0) :
    code % 2 ^ 31 = code % 2 ^ 5 := by
  apply Nat.eq_of_testBit_eq
  intro i
  rw [Nat.testBit_mod_two_pow, Nat.testBit_mod_two_pow]
  by_cases h5 : i < 5
  · have h31 : i < 31 := by omega
    simp [h5, h31]
  · by_cases h31 : i < 31
    · have hbit : code.testBit i = false := by
        have h0 : (code &&& RTE_INVALID_MASK).testBit i = false := by
          rw [hv]; exact Nat.zero_testBit i
        rw [Nat.testBit_and] at h0
        simpa [invalid_mask_testBit (by omega) h31] using h0
      simp [hbit]
    · simp [h5, h31]

lemma valid_code_fields (code : Nat) (hlt : code < UINT32_MOD)
    (hv : code &&& RTE_INVALID_MASK = 0) :
    code >>> 31 < 2 ∧ code &&& 31 = code % 32 ∧ lutEffIndex code = code &&& 31 := by
  have hlow : code % 2 ^ 31 = code % 2 ^ 5 := valid_code_low code hv
  have h31 : code &&& 31 = code % 32 := by
    have he : (31 : Nat) = 2 ^ 5 - 1 := by decide
    rw [he, Nat.and_pow_two_sub_one_eq_mod]
  have hsr : code >>> 31 = code / 2 ^ 31 := Nat.shiftRight_eq_div_pow code 31
  have hlt' : code < 2 ^ 32 := by
    have : UINT32_MOD = 2 ^ 32 := by decide
    omega
  refine ⟨by omega, h31, ?_⟩
  rw [h31]
  unfold lutEffIndex UINT32_MOD
  have h1 : (2 : Nat) ^ 31 = 2147483648 := by norm_num
  have h2 : (2 : Nat) ^ 5 = 32 := by norm_num
  rw [h1, h2] at hlow
  omega

/-- Claim C2: for every 32-bit identifier with only the direction bit
(bit 31) and the index field (bits 4..0) possibly set, `install`
returns the success status 0, writes the handler address into exactly
the slot selected by (direction, index), leaves every other slot
unchanged, and a dispatch lookup of the same identifier reads the
installed address back. -/
theorem claim2_install_valid_roundtrip (lut : VectorLut) (code handler : Nat)
    (hlt : code < UINT32_MOD) (hv : code &&& RTE_INVALID_MASK = 0) :
    (neorv32_rte_handler_install lut code handler).1 = 0 ∧
    (neorv32_rte_handler_install lut code handler).2 (code >>> 31) (code &&& 31) = handler ∧
    (∀ d i, ¬(d = code >>> 31 ∧ i = code &&& 31) →
      (neorv32_rte_handler_install lut code handler).2 d i = lut d i) ∧
    dispatchLookup (neorv32_rte_handler_install lut code handler).2 code = handler := by
  obtain ⟨hd2, h31, heff⟩ := valid_code_fields code hlt hv
  have hnv : ¬(code &&& RTE_INVALID_MASK ≠ 0) := by simpa using hv
  unfold neorv32_rte_handler_install
  rw [if_neg hnv]
  refine ⟨rfl, ?_, ?_, ?_⟩
  · simp [lutStore, heff]
  · intro d i hne
    simp only [lutStore, heff]
    rw [if_neg]
    intro hc
    exact hne ⟨hc.1, hc.2⟩
  · simp [dispatchLookup, lutStore, heff]

/-- Witness for C2 at the machine-software-interrupt identifier
`0x80000003`: installing handler address `0x1234` succeeds and reads
back on dispatch. -/
theorem claim2_install_valid_roundtrip_witness :
    (neorv32_rte_handler_install (fun _ _ => 0) 0x80000003 0x1234).1 = 0 ∧
    dispatchLookup (neorv32_rte_handler_install (fun _ _ => 0) 0x80000003 0x1234).2
      0x80000003 = 0x1234 := by
  have h := claim2_install_valid_roundtrip (fun _ _ => 0) 0x80000003 0x1234
    (by decide) (by decide)
  exact ⟨h.1, h.2.2.2⟩

/-- Claim C3: for every 32-bit identifier with a bit set outside bit 31
and bits 4..0, `install` returns -1 and leaves the vector table
unchanged. -/
theorem claim3_install_invalid_rejected (lut : VectorLut) (code handler : Nat)
    (hv : code &&& RTE_INVALID_MASK ≠ 0) :
    (neorv32_rte_handler_install lut code handler).1 = -1 ∧
    (neorv32_rte_handler_install lut code handler).2 = lut := by
  unfold neorv32_rte_handler_install
  rw [if_pos hv]
  exact ⟨rfl, rfl⟩

/-- Witness for C3 at identifier `0x20` (bit 5 set, outside the
direction+index field): the install fails with -1 and the table is
returned unchanged. -/
theorem claim3_install_invalid_rejected_witness :
    (neorv32_rte_handler_install (fun _ _ => 0) 0x20 0x1234).1 = -1 ∧
    (neorv32_rte_handler_install (fun _ _ => 0) 0x20 0x1234).2 = (fun _ _ => 0) := by
  exact claim3_install_invalid_rejected (fun _ _ => 0) 0x20 0x1234 (by decide)

/-- Claim C9: for every register index valid for the configured
register-file width and every word `v`, `contextGet x` after
`contextPut x v` in the same trap frame returns `v`; both accessors
resolve the slot at the frame base from MSCRATCH plus `4*x` (the
masking of `x` to the valid range is the identity on valid indices). -/
theorem claim9_context_get_after_put (rv32e : Bool) (mscratch : Nat)
    (mem : Nat → Nat) (x : Int) (v : Nat)
    (hx0 : 0 ≤ x) (hx : x < (if rv32e then 16 else 32)) :
    neorv32_rte_context_get rv32e mscratch
      (neorv32_rte_context_put rv32e mscratch mem x v) x = v ∧
    contextAddr rv32e mscratch x = (mscratch + 4 * x.toNat) % UINT32_MOD := by
  constructor
  · simp [neorv32_rte_context_get, neorv32_rte_context_put, storeWord]
  · have hxlt : x < (4294967296 : Int) := by
      rcases rv32e <;> simp at hx <;> omega
    have hmod : x % (4294967296 : Int) = x := Int.emod_eq_of_lt hx0 hxlt
    have hmask : x.toNat &&& regMask rv32e = x.toNat := by
      rcases rv32e
      · show x.toNat &&& 31 = x.toNat
        have he : (31 : Nat) = 2 ^ 5 - 1 := by decide
        rw [he]
        exact Nat.and_pow_two_sub_one_of_lt_two_pow (by simp at hx; omega)
      · show x.toNat &&& 15 = x.toNat
        have he : (15 : Nat) = 2 ^ 4 - 1 := by decide
        rw [he]
        exact Nat.and_pow_two_sub_one_of_lt_two_pow (by simp at hx; omega)
    unfold contextAddr
    rw [hmod, hmask, Nat.shiftLeft_eq]
    norm_num [Nat.mul_comm]

/-- Witness for C9: writing 77 to saved register 5 and reading it back
returns 77, at the expected frame-slot address. -/
theorem claim9_context_get_after_put_witness :
    neorv32_rte_context_get false 0x80000000
      (neorv32_rte_context_put false 0x80000000 (fun _ => 0) 5 77) 5 = 77 ∧
    contextAddr false 0x80000000 5 = 0x80000014 := by
  have h := claim9_context_get_after_put false 0x80000000 (fun _ => 0) 5 77
    (by decide) (by decide)
  refine ⟨h.1, ?_⟩
  rw [h.2]
  rfl

/-- Claim C6: when UART0 is unavailable the debug handler returns
immediately with no mutation at all: the interrupt-enable register is
unchanged, nothing is printed, and the terminal halt is not entered,
whatever the trap cause. -/
theorem claim6_debug_handler_silent_noop
    (mhartid mstatus mcause mepc mtinst mtval mie : Nat) :
    neorv32_rte_debug_handler false mhartid mstatus mcause mepc mtinst mtval mie =
      { mie := mie, out := [], halted := false } := by
  rfl

/-- Counterexample to C4 as stated: invoked with the fetch-fault cause
while UART0 is unavailable, the debug handler returns (does not halt)
and leaves the interrupt-enable register at its prior value 5 instead
of writing zero. -/
theorem claim4_counterexample :
    (neorv32_rte_debug_handler false 0 0 TRAP_CODE_I_ACCESS 0 0 0 5).halted = false ∧
    (neorv32_rte_debug_handler false 0 0 TRAP_CODE_I_ACCESS 0 0 0 5).mie = 5 := by
  exact ⟨rfl, rfl⟩

/-- Claim C4 (amended): for every invocation of the debug handler with
a trap cause in {fetch fault, fetch misaligned, double-trap} while
UART0 is available, the handler writes zero to the interrupt-enable
register and never returns (it enters the terminal halt). -/
theorem claim4_fatal_disables_and_halts
    (mhartid mstatus mcause mepc mtinst mtval mie : Nat)
    (hfatal : mcause = TRAP_CODE_I_ACCESS ∨ mcause = TRAP_CODE_I_MISALIGNED ∨
      mcause = TRAP_CODE_DOUBLE_TRAP) :
    (neorv32_rte_debug_handler true mhartid mstatus mcause mepc mtinst mtval mie).mie = 0 ∧
    (neorv32_rte_debug_handler true mhartid mstatus mcause mepc mtinst mtval mie).halted
      = true := by
  unfold neorv32_rte_debug_handler
  rcases hfatal with h | h | h <;> subst h <;> simp

/-- Witness for the amended C4 at the double-trap cause with all
interrupt sources previously enabled. -/
theorem claim4_fatal_disables_and_halts_witness :
    (neorv32_rte_debug_handler true 0 0 TRAP_CODE_DOUBLE_TRAP 0 0 0 0xffffffff).mie = 0 ∧
    (neorv32_rte_debug_handler true 0 0 TRAP_CODE_DOUBLE_TRAP 0 0 0 0xffffffff).halted
      = true := by
  exact claim4_fatal_disables_and_halts 0 0 TRAP_CODE_DOUBLE_TRAP 0 0 0 0xffffffff
    (Or.inr (Or.inr rfl))

/-- Counterexample to C5 as stated: invoked with the machine-software
interrupt cause (index 3) while UART0 is unavailable, the debug
handler leaves MIE = 8, so the enable bit at the cause's index 3 is
still set rather than cleared. -/
theorem claim5_counterexample :
    (neorv32_rte_debug_handler false 0 0 TRAP_CODE_MSI 0 0 0 8).mie = 8 ∧
    ((neorv32_rte_debug_handler false 0 0 TRAP_CODE_MSI 0 0 0 8).mie).testBit
      (TRAP_CODE_MSI &&& 0x1f) = true := by
  exact ⟨rfl, by decide⟩

/-- Claim C5 (amended): for every invocation of the debug handler with
an interrupt cause (MCAUSE bit 31 set) while UART0 is available, the
handler clears exactly the interrupt-enable bit at the cause's 5-bit
index and leaves every other bit of the register unchanged. -/
theorem claim5_irq_disables_one_bit
    (mhartid mstatus mcause mepc mtinst mtval mie : Nat)
    (hirq : mcause.testBit 31 = true) (hmie : mie < UINT32_MOD) :
    ((neorv32_rte_debug_handler true mhartid mstatus mcause mepc mtinst mtval mie).mie).testBit
      (mcause &&& 0x1f) = false ∧
    (∀ b, b ≠ mcause &&& 0x1f →
      ((neorv32_rte_debug_handler true mhartid mstatus mcause mepc mtinst mtval mie).mie).testBit b
        = mie.testBit b) := by
  have hge : 2 ^ 31 ≤ mcause := Nat.testBit_implies_ge hirq
  have hne1 : ¬(mcause = TRAP_CODE_I_ACCESS ∨ mcause = TRAP_CODE_I_MISALIGNED ∨
      mcause = TRAP_CODE_DOUBLE_TRAP) := by
    unfold TRAP_CODE_I_ACCESS TRAP_CODE_I_MISALIGNED TRAP_CODE_DOUBLE_TRAP
    have : (2 : Nat) ^ 31 = 2147483648 := by norm_num
    omega
  have hk : mcause &&& 0x1f < 32 := by
    have := Nat.and_le_right (n := mcause) (m := 0x1f)
    omega
  have hres :
      (neorv32_rte_debug_handler true mhartid mstatus mcause mepc mtinst mtval mie).mie
        = mie &&& ((UINT32_MOD - 1) ^^^ (1 <<< (mcause &&& 0x1f))) := by
    unfold neorv32_rte_debug_handler
    simp [hirq, hne1]
  have hmaskbit : ∀ b, ((UINT32_MOD - 1) ^^^ (1 <<< (mcause &&& 0x1f))).testBit b
      = ((decide (b < 32)).xor (decide (mcause &&& 0x1f = b))) := by
    intro b
    rw [Nat.testBit_xor, Nat.one_shiftLeft, Nat.testBit_two_pow]
    have he : UINT32_MOD - 1 = 2 ^ 32 - 1 := by decide
    rw [he, Nat.testBit_two_pow_sub_one]
  constructor
  · rw [hres, Nat.testBit_and, hmaskbit]
    simp [hk]
  · intro b hb
    rw [hres, Nat.testBit_and, hmaskbit]
    by_cases hb32 : b < 32
    · have : ¬(mcause &&& 0x1f = b) := fun hc => hb hc.symm
      simp [hb32, this]
    · have hmb : mie.testBit b = false := by
        apply Nat.testBit_lt_two_pow
        calc mie < UINT32_MOD := hmie
        _ = 2 ^ 32 := by decide
        _ ≤ 2 ^ b := Nat.pow_le_pow_right (by omega) (by omega)
      simp [hb32, hmb]

/-- Witness for the amended C5 at the machine-timer interrupt (index
7): bit 7 of MIE = 0xffffffff is cleared and bit 3 survives. -/
theorem claim5_irq_disables_one_bit_witness :
    ((neorv32_rte_debug_handler true 0 0 TRAP_CODE_MTI 0 0 0 0xffffffff).mie).testBit
      (TRAP_CODE_MTI &&& 0x1f) = false ∧
    ((neorv32_rte_debug_handler true 0 0 TRAP_CODE_MTI 0 0 0 0xffffffff).mie).testBit 3
      = (0xffffffff : Nat).testBit 3 := by
  have h := claim5_irq_disables_one_bit 0 0 TRAP_CODE_MTI 0 0 0 0xffffffff
    (by decide) (by decide)
  exact ⟨h.1, h.2 3 (by decide)⟩

lemma add32_four_sub32_two (a : Nat) : sub32 (add32 a 4) 2 = add32 a 2 := by
  unfold sub32 add32 UINT32_MOD
  omega

lemma core_mepc (rv32e riscv_c : Bool) (lut : VectorLut)
    (H : Nat → RteState → RteState) (s : RteState)
    (hH : ∀ a st, (H a st).mepc = st.mepc ∧ (H a st).mtinst = st.mtinst) :
    (neorv32_rte_core rv32e riscv_c lut H s).1.mepc =
      fixupMepc riscv_c s.mcause s.mepc s.mtinst := by
  by_cases hb : dispatchLookup lut s.mcause = 0
  · simp [neorv32_rte_core, hb]
  · simp [neorv32_rte_core, hb, hH]

/-- Claim C1: for every trap dispatched by the first-level handler
whose cause is an exception other than the instruction-access (fetch)
fault, the post-dispatch MEPC equals the pre-trap MEPC plus 4, or plus
2 when compressed instructions are enabled and MTINST's two lowest
bits are not both set; for a fetch fault and for every interrupt, MEPC
is left unchanged.  `hH` states that the invoked second-level handler
itself leaves MEPC and MTINST alone. -/
theorem claim1_resume_address_fixup (rv32e riscv_c : Bool) (lut : VectorLut)
    (H : Nat → RteState → RteState) (s : RteState)
    (hH : ∀ a st, (H a st).mepc = st.mepc ∧ (H a st).mtinst = st.mtinst) :
    ((s.mcause >>> 31 = 0 ∧ s.mcause ≠ TRAP_CODE_I_ACCESS) →
      (neorv32_rte_core rv32e riscv_c lut H s).1.mepc =
        (if riscv_c = true ∧ s.mtinst &&& 3 ≠ 3 then add32 s.mepc 2
         else add32 s.mepc 4)) ∧
    ((s.mcause >>> 31 ≠ 0 ∨ s.mcause = TRAP_CODE_I_ACCESS) →
      (neorv32_rte_core rv32e riscv_c lut H s).1.mepc = s.mepc) := by
  rw [core_mepc rv32e riscv_c lut H s hH]
  constructor
  · intro hexc
    unfold fixupMepc
    rw [if_pos hexc]
    by_cases hc : riscv_c = true ∧ s.mtinst &&& 3 ≠ 3
    · rw [if_pos hc, if_pos hc, add32_four_sub32_two]
    · rw [if_neg hc, if_neg hc]
  · intro hother
    unfold fixupMepc
    rw [if_neg]
    intro hc
    rcases hother with h | h
    · exact h hc.1
    · exact hc.2 h

/-- Witness for C1: an illegal-instruction trap (cause 2) with an
uncompressed trapped instruction word advances MEPC from 0x100 to
0x104; a machine-external interrupt leaves MEPC unchanged. -/
theorem claim1_resume_address_fixup_witness :
    (neorv32_rte_core false true (fun _ _ => 0) (fun _ st => st)
      { regs := fun _ => 0, mem := fun _ => 0, mscratch := 0, mepc := 0x100,
        mcause := TRAP_CODE_I_ILLEGAL, mtinst := 3, mie := 0 }).1.mepc = 0x104 ∧
    (neorv32_rte_core false true (fun _ _ => 0) (fun _ st => st)
      { regs := fun _ => 0, mem := fun _ => 0, mscratch := 0, mepc := 0x100,
        mcause := TRAP_CODE_MEI, mtinst := 3, mie := 0 }).1.mepc = 0x100 := by
  constructor
  · have h := (claim1_resume_address_fixup false true (fun _ _ => 0) (fun _ st => st)
      { regs := fun _ => 0, mem := fun _ => 0, mscratch := 0, mepc := 0x100,
        mcause := TRAP_CODE_I_ILLEGAL, mtinst := 3, mie := 0 }
      (fun _ _ => ⟨rfl, rfl⟩)).1 ⟨by decide, by decide⟩
    rw [h]
    decide
  · exact (claim1_resume_address_fixup false true (fun _ _ => 0) (fun _ st => st)
      { regs := fun _ => 0, mem := fun _ => 0, mscratch := 0, mepc := 0x100,
        mcause := TRAP_CODE_MEI, mtinst := 3, mie := 0 }
      (fun _ _ => ⟨rfl, rfl⟩)).2 (Or.inl (by decide))

/-- Claim C7: a trap whose selected vector-table slot is null invokes
no second-level handler and is not treated as an error: the return
address fix-up is still performed and the registers are still restored
from the saved frame, and the final state is identical to a run in
which a non-null handler with no effect is installed in that slot. -/
theorem claim7_null_handler_skipped (rv32e riscv_c : Bool) (lut : VectorLut)
    (H : Nat → RteState → RteState) (s : RteState)
    (hnull : dispatchLookup lut s.mcause = 0) :
    (neorv32_rte_core rv32e riscv_c lut H s).2 = false ∧
    (neorv32_rte_core rv32e riscv_c lut H s).1.mepc =
      fixupMepc riscv_c s.mcause s.mepc s.mtinst ∧
    (neorv32_rte_core rv32e riscv_c lut H s).1.regs =
      restoreRegs rv32e (frameBase rv32e s) (saveMem rv32e s) s.regs ∧
    (neorv32_rte_core rv32e riscv_c lut H s).1 =
      (neorv32_rte_core rv32e riscv_c
        (lutStore lut (s.mcause >>> 31) (s.mcause &&& 31) 1)
        (fun _ st => st) s).1 := by
  have hlook : dispatchLookup
      (lutStore lut (s.mcause >>> 31) (s.mcause &&& 31) 1) s.mcause = 1 := by
    simp [dispatchLookup, lutStore]
  simp [neorv32_rte_core, hnull, hlook]

/-- Witness for C7: a breakpoint trap on an all-null table invokes no
handler and still advances MEPC (uncompressed fix-up: 0x200 to 0x204). -/
theorem claim7_null_handler_skipped_witness :
    (neorv32_rte_core false false (fun _ _ => 0) (fun _ st => st)
      { regs := fun _ => 0, mem := fun _ => 0, mscratch := 0, mepc := 0x200,
        mcause := TRAP_CODE_BREAKPOINT, mtinst := 3, mie := 0 }).2 = false ∧
    (neorv32_rte_core false false (fun _ _ => 0) (fun _ st => st)
      { regs := fun _ => 0, mem := fun _ => 0, mscratch := 0, mepc := 0x200,
        mcause := TRAP_CODE_BREAKPOINT, mtinst := 3, mie := 0 }).1.mepc =
      fixupMepc false TRAP_CODE_BREAKPOINT 0x200 3 := by
  have h := claim7_null_handler_skipped false false (fun _ _ => 0) (fun _ st => st)
    { regs := fun _ => 0, mem := fun _ => 0, mscratch := 0, mepc := 0x200,
      mcause := TRAP_CODE_BREAKPOINT, mtinst := 3, mie := 0 } rfl
  exact ⟨h.1, h.2.1⟩

lemma fillLut_foldl (lut : VectorLut) (dbg : Nat) (n d i : Nat) :
    ((List.range n).foldl
      (fun L j => lutStore (lutStore L 0 j dbg) 1 j dbg) lut) d i =
      if (d = 0 ∨ d = 1) ∧ i < n then dbg else lut d i := by
  induction n with
  | zero => simp
  | succ n ih =>
    rw [List.range_succ, List.foldl_append]
    simp only [List.foldl_cons, List.foldl_nil]
    simp only [lutStore, ih]
    split_ifs <;> first | rfl | omega

lemma fillLut_eq (lut : VectorLut) (dbg : Nat) (d i : Nat) (hd : d < 2)
    (hi : i < 32) : fillLut lut dbg d i = dbg := by
  unfold fillLut
  rw [fillLut_foldl]
  rw [if_pos ⟨by omega, hi⟩]

/-- Claim C8: `setup` on every core writes zero to the
interrupt-enable register and points MTVEC at the first-level handler
(its address with the two low mode bits cleared, the identity for the
4-byte-aligned routine); on the core whose hart-id reads zero it also
fills all 64 vector-table slots with the debug handler's address. -/
theorem claim8_setup_defaults (mhartid coreAddr dbgAddr : Nat) (st : SetupState) :
    (neorv32_rte_setup mhartid coreAddr dbgAddr st).mie = 0 ∧
    (neorv32_rte_setup mhartid coreAddr dbgAddr st).mtvec = coreAddr &&& 0xfffffffc ∧
    (mhartid = 0 → ∀ d i, d < 2 → i < 32 →
      (neorv32_rte_setup mhartid coreAddr dbgAddr st).lut d i = dbgAddr) := by
  refine ⟨rfl, rfl, ?_⟩
  intro h0 d i hd hi
  unfold neorv32_rte_setup
  simp only [h0, if_pos]
  exact fillLut_eq st.lut dbgAddr d i hd hi

/-- Witness for C8 on the designated core (hart 0): slot (1, 31) holds
the debug handler's address 0x5678, MIE is zero and MTVEC holds the
aligned core address 0x2000. -/
theorem claim8_setup_defaults_witness :
    (neorv32_rte_setup 0 0x2000 0x5678
      { mstatus := 1, mtvec := 2, mie := 3, lut := fun _ _ => 0 }).mie = 0 ∧
    (neorv32_rte_setup 0 0x2000 0x5678
      { mstatus := 1, mtvec := 2, mie := 3, lut := fun _ _ => 0 }).mtvec = 0x2000 ∧
    (neorv32_rte_setup 0 0x2000 0x5678
      { mstatus := 1, mtvec := 2, mie := 3, lut := fun _ _ => 0 }).lut 1 31 = 0x5678 := by
  have h := claim8_setup_defaults 0 0x2000 0x5678
    { mstatus := 1, mtvec := 2, mie := 3, lut := fun _ _ => 0 }
  refine ⟨h.1, ?_, h.2.2 rfl 1 31 (by decide) (by decide)⟩
  rw [h.2.1]
  decide

/-- Claim C10 (witnessing the code bug): called with `digits = 1` — as
the debug handler does for every fast-interrupt cause — the hex
printer emits 15 hex characters after the "0x" prefix instead of 1,
because its loop counter starts at `digits - 8` instead of
`8 - digits`; the shift amounts computed on the way start at 56, far
outside the range 0..31 that a 32-bit shift allows. -/
theorem claim10_print_hex_digit_count_bug :
    (_neorv32_rte_print_hex true 0 1).length = 2 + 15 ∧
    (printHexIndices 1).map printHexShiftAmount =
      [56, 52, 48, 44, 40, 36, 32, 28, 24, 20, 16, 12, 8, 4, 0] ∧
    (_neorv32_rte_print_hex true 0xA0000000 8).length = 2 + 8 := by
  refine ⟨by decide, by decide, by decide⟩
